import Mathlib

/-!
Shallow embedding of the single-header engine `imcgknEngine.hpp`
(classes `Window`, `Shader`, `VertexBufferObject`, `ElementBufferObject`,
`Renderable`, `GameObject`) together with theorems settling the frozen
claims about its specification.

Modelling conventions:
* `std::unordered_map<K, KeyState>` becomes an association list
  `List (K × KeyState)`; `operator[]` on a missing key value-initializes
  the mapped enum to its zero enumerator (`JustPressed`, the first
  enumerator of the C++ `enum class KeyState`), which `assocGetOrInsert`
  reproduces.
* `float` / `double` quantities become `ℚ` (exact arithmetic; the claims
  concern signs and branch selection, not rounding).
* OpenGL driver calls become entries of a `DriverCall` trace; a null
  pointer dereference becomes `Except.error`.
-/

set_option autoImplicit false

namespace imcgkn

/-- Per-key and per-button digital input state, mirroring
`enum class KeyState` of the source. Constructor order matters: C++
value-initialization of the enum yields the value 0, which is the first
enumerator `JustPressed`. -/
inductive KeyState where
  | JustPressed
  | JustReleased
  | Down
  | Released
deriving DecidableEq, Repr

/-- The mapped value produced by `operator[]` on a missing key of
`std::unordered_map<K, KeyState>`: value-initialization of the enum,
i.e. the enumerator with value 0. -/
def valueInitKeyState : KeyState := KeyState.JustPressed

/-- The per-entry decay performed by `Window::SecondUpdate` on one map
entry: two sequential `if` statements (not `else if`). -/
def keyStateDecay (s : KeyState) : KeyState :=
  let s1 := if s = KeyState.JustPressed then KeyState.Down else s
  if s1 = KeyState.JustReleased then KeyState.Released else s1

/-- Lookup in an association list, mirroring `unordered_map::find`. -/
def assocFind {α β : Type} [DecidableEq α] (k : α) : List (α × β) → Option β
  | [] => none
  | (a, b) :: rest => if k = a then some b else assocFind k rest

/-- `map[k] = v` on `std::unordered_map`: overwrite the mapped value if
the key is present, otherwise insert a new entry. -/
def assocSet {α β : Type} [DecidableEq α] (k : α) (v : β) :
    List (α × β) → List (α × β)
  | [] => [(k, v)]
  | (a, b) :: rest =>
      if k = a then (a, v) :: rest else (a, b) :: assocSet k v rest

/-- Reading `map[k]` on `std::unordered_map`: return the mapped value if
present, otherwise insert the value-initialized default and return it. -/
def assocGetOrInsert {α β : Type} [DecidableEq α] (k : α) (d : β)
    (m : List (α × β)) : β × List (α × β) :=
  match assocFind k m with
  | some v => (v, m)
  | none => (d, m ++ [(k, d)])

/-- The loop body of `Window::SecondUpdate` applied to a whole state
map: every entry decays by `keyStateDecay`. -/
def decayEntries (m : List (Nat × KeyState)) : List (Nat × KeyState) :=
  m.map (fun p => (p.1, keyStateDecay p.2))

/-- The SDL events `Window::FirstUpdate` dispatches on. Numeric SDL
codes become `Nat`; `preciseY` of the wheel event and the motion
coordinates become `ℚ`. -/
inductive SDLEvent where
  | quit
  | keyDown (code : Nat)
  | keyUp (code : Nat)
  | mouseButtonDown (button : Nat)
  | mouseButtonUp (button : Nat)
  | windowResized (w h : Int)
  | mouseMotion (x y xrel yrel : ℚ)
  | mouseWheel (preciseY : ℚ)
deriving DecidableEq, Repr

/-- State of the `Window` class: every data member that participates in
the input-state machine (the SDL window / GL context handles are owned
by the driver and carry no state of their own). -/
structure Window where
  m_Width : Int
  m_Height : Int
  m_IsOpen : Bool
  m_IsResized : Bool
  m_DeltaTime : ℚ
  m_MousePosX : ℚ
  m_MousePosY : ℚ
  m_MouseRelX : ℚ
  m_MouseRelY : ℚ
  m_ScrollDistance : ℚ
  m_ZoomSpeed : ℚ
  m_Keys : List (Nat × KeyState)
  m_MouseButtons : List (Nat × KeyState)
deriving DecidableEq, Repr

/-- `SDL_NUM_SCANCODES`. -/
def SDL_NUM_SCANCODES : Nat := 512

/-- The `Window` constructor state: keys `0 .. SDL_NUM_SCANCODES - 1`
initialized to `Released`, mouse buttons `0 .. 4` initialized to
`Released`, zoom speed 550, everything else zero / default. -/
def initWindow (w h : Int) : Window where
  m_Width := w
  m_Height := h
  m_IsOpen := true
  m_IsResized := false
  m_DeltaTime := 0
  m_MousePosX := 0
  m_MousePosY := 0
  m_MouseRelX := 0
  m_MouseRelY := 0
  m_ScrollDistance := 0
  m_ZoomSpeed := 550
  m_Keys := (List.range SDL_NUM_SCANCODES).map (fun i => (i, KeyState.Released))
  m_MouseButtons := (List.range 5).map (fun i => (i, KeyState.Released))

/-- One iteration of the `switch` in `Window::FirstUpdate`. -/
def Window.processEvent (w : Window) (ev : SDLEvent) : Window :=
  match ev with
  | SDLEvent.quit => { w with m_IsOpen := false }
  | SDLEvent.keyDown c => { w with m_Keys := assocSet c KeyState.JustPressed w.m_Keys }
  | SDLEvent.keyUp c => { w with m_Keys := assocSet c KeyState.JustReleased w.m_Keys }
  | SDLEvent.mouseButtonDown b =>
      { w with m_MouseButtons := assocSet b KeyState.JustPressed w.m_MouseButtons }
  | SDLEvent.mouseButtonUp b =>
      { w with m_MouseButtons := assocSet b KeyState.JustReleased w.m_MouseButtons }
  | SDLEvent.windowResized a b =>
      { w with m_Width := a, m_Height := b, m_IsResized := true }
  | SDLEvent.mouseMotion x y xrel yrel =>
      { w with m_MouseRelX := xrel, m_MouseRelY := yrel,
               m_MousePosX := x, m_MousePosY := y }
  | SDLEvent.mouseWheel py =>
      if py > 0 then
        { w with m_ScrollDistance := w.m_ScrollDistance - w.m_ZoomSpeed * w.m_DeltaTime }
      else if py < 0 then
        { w with m_ScrollDistance := w.m_ScrollDistance + w.m_ZoomSpeed * w.m_DeltaTime }
      else w

/-- `Window::FirstUpdate`: drain the pending event queue in order. -/
def Window.firstUpdate (w : Window) (events : List SDLEvent) : Window :=
  events.foldl Window.processEvent w

/-- `Window::SecondUpdate`: decay every key and button state, clear the
resized flag and the relative mouse displacement. -/
def Window.secondUpdate (w : Window) : Window :=
  { w with m_Keys := decayEntries w.m_Keys,
           m_MouseButtons := decayEntries w.m_MouseButtons,
           m_IsResized := false,
           m_MouseRelX := 0,
           m_MouseRelY := 0 }

/-- `Window::CheckKeyUp`: `m_Keys[key] == KeyState::JustReleased`
(note the default-inserting `operator[]`). -/
def Window.checkKeyUp (w : Window) (key : Nat) : Bool × Window :=
  let r := assocGetOrInsert key valueInitKeyState w.m_Keys
  (r.1 = KeyState.JustReleased, { w with m_Keys := r.2 })

/-- `Window::CheckKeyDown`: `m_Keys[key] == KeyState::Down`. -/
def Window.checkKeyDown (w : Window) (key : Nat) : Bool × Window :=
  let r := assocGetOrInsert key valueInitKeyState w.m_Keys
  (r.1 = KeyState.Down, { w with m_Keys := r.2 })

/-- `Window::CheckMouseButtonUp`:
`m_MouseButtons[key] == KeyState::JustReleased`. -/
def Window.checkMouseButtonUp (w : Window) (key : Nat) : Bool × Window :=
  let r := assocGetOrInsert key valueInitKeyState w.m_MouseButtons
  (r.1 = KeyState.JustReleased, { w with m_MouseButtons := r.2 })

/-- `Window::CheckMouseButtonDown`:
`m_MouseButtons[key] == KeyState::Down`. -/
def Window.checkMouseButtonDown (w : Window) (key : Nat) : Bool × Window :=
  let r := assocGetOrInsert key valueInitKeyState w.m_MouseButtons
  (r.1 = KeyState.Down, { w with m_MouseButtons := r.2 })

/-- `enum class BufferUsage` of the source (driver constants are opaque
tags here). -/
inductive BufferUsage where
  | Empty
  | StaticDraw
  | StaticCopy
  | StaticRead
  | DynamicDraw
  | DynamicCopy
  | DynamicRead
deriving DecidableEq, Repr

/-- `enum class RenderMode` of the source. -/
inductive RenderMode where
  | Points
  | Lines
  | Line_Loop
  | Line_Strip
  | Triangles
  | Triangle_Fan
  | Triangle_Strip
deriving DecidableEq, Repr

/-- `struct Vertex`: position, color, normal (3 floats each) and UV
(2 floats), modelled over `ℚ`. -/
structure Vertex where
  aPos : ℚ × ℚ × ℚ
  aColor : ℚ × ℚ × ℚ
  aNormal : ℚ × ℚ × ℚ
  aUV : ℚ × ℚ
deriving DecidableEq, Repr

/-- `sizeof(Vertex)`: 11 packed 4-byte floats. -/
def sizeofVertex : Nat := 44

/-- `sizeof(unsigned int)`. -/
def sizeofUInt : Nat := 4

/-- Which upload path a buffer `UpdateVBO` call took: the in-place
sub-range write (`glBufferSubData`) or the full reallocation
(`glBufferData`). -/
inductive BufferAction where
  | subData
  | reallocData
deriving DecidableEq, Repr

/-- Data members of `class VertexBufferObject`. The driver handle
`m_ID` is an opaque `Nat`. -/
structure VertexBufferObject where
  m_ID : Nat
  m_Usage : BufferUsage
  m_Size : Nat
  m_VertexCount : Nat
deriving DecidableEq, Repr

/-- The `VertexBufferObject(vertices, usage)` constructor (the fresh
driver handle is supplied by the caller as `id`): records the byte size
`vertices.size() * sizeof(Vertex)` and the vertex count. -/
def mkVertexBufferObject (id : Nat) (vertices : List Vertex)
    (usage : BufferUsage) : VertexBufferObject where
  m_ID := id
  m_Usage := usage
  m_Size := vertices.length * sizeofVertex
  m_VertexCount := vertices.length

/-- `VertexBufferObject::GetVertexCount`. -/
def VertexBufferObject.GetVertexCount (v : VertexBufferObject) : Nat :=
  v.m_VertexCount

/-- `VertexBufferObject::UpdateVBO`: sets the vertex count, then writes
in place when the new byte size equals the recorded size, otherwise
reallocates and records the new size. Returns the new state and which
upload path was taken. -/
def VertexBufferObject.UpdateVBO (v : VertexBufferObject)
    (vertices : List Vertex) : VertexBufferObject × BufferAction :=
  let newSize := vertices.length * sizeofVertex
  if newSize = v.m_Size then
    ({ v with m_VertexCount := vertices.length }, BufferAction.subData)
  else
    ({ v with m_VertexCount := vertices.length, m_Size := newSize },
     BufferAction.reallocData)

/-- The `VertexBufferObject` move constructor: the initializer list
copies only `m_ID` and `m_Usage`; `m_Size` and `m_VertexCount` of the
target keep their default member initializers (0). Returns the
move-constructed target and the hollowed-out source. -/
def VertexBufferObject.moveConstruct (other : VertexBufferObject) :
    VertexBufferObject × VertexBufferObject :=
  ({ m_ID := other.m_ID, m_Usage := other.m_Usage,
     m_Size := 0, m_VertexCount := 0 },
   { other with m_ID := 0, m_Usage := BufferUsage.Empty })

/-- The `VertexBufferObject` move assignment operator: copies
`m_VertexCount`, `m_Usage` and `m_ID` from the source (but not
`m_Size`), then zeroes the source handle. Returns the assigned target
and the hollowed-out source. -/
def VertexBufferObject.moveAssign (this_ other : VertexBufferObject) :
    VertexBufferObject × VertexBufferObject :=
  ({ this_ with m_VertexCount := other.m_VertexCount,
                m_Usage := other.m_Usage,
                m_ID := other.m_ID },
   { other with m_ID := 0 })

/-- Data members of `class ElementBufferObject`. -/
structure ElementBufferObject where
  m_ID : Nat
  m_Usage : BufferUsage
  m_Size : Nat
  m_IndexCount : Nat
deriving DecidableEq, Repr

/-- The `ElementBufferObject(indices, usage)` constructor. -/
def mkElementBufferObject (id : Nat) (indices : List Nat)
    (usage : BufferUsage) : ElementBufferObject where
  m_ID := id
  m_Usage := usage
  m_Size := indices.length * sizeofUInt
  m_IndexCount := indices.length

/-- `ElementBufferObject::GetIndexCount`. -/
def ElementBufferObject.GetIndexCount (e : ElementBufferObject) : Nat :=
  e.m_IndexCount

/-- `ElementBufferObject::UpdateVBO`: same branch structure as the
vertex-buffer update, over `sizeof(unsigned int)` elements. -/
def ElementBufferObject.UpdateVBO (e : ElementBufferObject)
    (indices : List Nat) : ElementBufferObject × BufferAction :=
  let newSize := indices.length * sizeofUInt
  if newSize = e.m_Size then
    ({ e with m_IndexCount := indices.length }, BufferAction.subData)
  else
    ({ e with m_IndexCount := indices.length, m_Size := newSize },
     BufferAction.reallocData)

/-- Data member of `class VertexArrayObject`. -/
structure VertexArrayObject where
  m_ID : Nat
deriving DecidableEq, Repr

/-- Data member of `class Texture` relevant to rendering. -/
structure Texture where
  m_ID : Nat
deriving DecidableEq, Repr

/-- State of `class Shader`: the program handle and the uniform-location
cache `std::map<std::string, int>`, modelled as an association list. -/
structure Shader where
  m_ID : Nat
  m_UniformLocations : List (String × Int)
deriving DecidableEq, Repr

/-- `Shader::GetUniformLocation`: return the cached location when the
name is present; otherwise query the driver (`glGetUniformLocation`,
abstracted as the function `driver`, which yields -1 for a name absent
from the program) and cache the result. The returned `Bool` records
whether the driver was queried by this call. -/
def Shader.GetUniformLocation (driver : String → Int) (s : Shader)
    (name : String) : Int × Shader × Bool :=
  match assocFind name s.m_UniformLocations with
  | some location => (location, s, false)
  | none =>
      let location := driver name
      (location,
       { s with m_UniformLocations := s.m_UniformLocations ++ [(name, location)] },
       true)

/-- State of `class Renderable`: the vertex array, the vertex buffer and
the optional index buffer (`m_EBO` is a `std::unique_ptr` that is null
when the vertices-only constructor was used), plus the retained copies
of the input data. -/
structure Renderable where
  m_VAO : VertexArrayObject
  m_VBO : VertexBufferObject
  m_EBO : Option ElementBufferObject
  m_Vertices : List Vertex
  m_Indices : List Nat
deriving DecidableEq, Repr

/-- `Renderable::GetEBO` returns the raw `m_EBO` pointer (possibly
null). -/
def Renderable.GetEBO (r : Renderable) : Option ElementBufferObject :=
  r.m_EBO

/-- One call into the graphics driver issued during
`GameObject::Render`, in issue order. -/
inductive DriverCall where
  | useProgram (id : Nat)
  | uniformMatrix4fv (location : Int)
  | uniform1i (location : Int) (v : Int)
  | activeTexture (slot : Nat)
  | bindTexture (id : Nat)
  | bindVertexArray (id : Nat)
  | drawElements (mode : RenderMode) (count : Nat)
  | drawArrays (mode : RenderMode) (first : Nat) (count : Nat)
deriving DecidableEq, Repr

/-- `struct Transform`. -/
structure Transform where
  Position : ℚ × ℚ × ℚ
  Scale : ℚ × ℚ × ℚ
  Rotation : ℚ × ℚ × ℚ
deriving DecidableEq, Repr

/-- State of `class GameObject`: the transform, the shared `Renderable`
and the shared `Texture` (both possibly null). -/
structure GameObject where
  m_Transform : Transform
  m_Renderable : Option Renderable
  m_Texture : Option Texture
deriving DecidableEq, Repr

/-- `GameObject::Render`. Returns the unchanged object, the shader state
after its uniform-cache updates, and the driver-call trace — or an error
when the code dereferences the null `m_EBO` pointer in the condition
`GetEBO()->GetIndexCount() > 0 && GetEBO() != nullptr` (the left operand
of `&&` is evaluated first in C++). The early return fires when either
the renderable or the supplied shader pointer is null. -/
def GameObject.Render (g : GameObject) (driver : String → Int)
    (shader : Option Shader) (modelName sampler2DName : String)
    (renderMode : RenderMode) :
    Except String (GameObject × Option Shader × List DriverCall) :=
  match g.m_Renderable, shader with
  | none, _ => Except.ok (g, shader, [])
  | some _, none => Except.ok (g, shader, [])
  | some r, some sh =>
      let t0 := [DriverCall.useProgram sh.m_ID]
      let u1 := Shader.GetUniformLocation driver sh modelName
      let t1 := [DriverCall.useProgram sh.m_ID,
                 DriverCall.uniformMatrix4fv u1.1]
      let texStep : List DriverCall × Shader :=
        match g.m_Texture with
        | some tex =>
            let u2 := Shader.GetUniformLocation driver u1.2.1 sampler2DName
            ([DriverCall.activeTexture 0, DriverCall.bindTexture tex.m_ID,
              DriverCall.useProgram sh.m_ID, DriverCall.uniform1i u2.1 0],
             u2.2.1)
        | none => ([], u1.2.1)
      let t3 := [DriverCall.bindVertexArray r.m_VAO.m_ID]
      match r.GetEBO with
      | none =>
          Except.error "null pointer dereference in GetEBO()->GetIndexCount()"
      | some ebo =>
          let draw :=
            if ebo.GetIndexCount > 0 then
              [DriverCall.drawElements renderMode ebo.GetIndexCount]
            else
              [DriverCall.drawArrays renderMode 0 r.m_VBO.GetVertexCount]
          let tailCalls :=
            [DriverCall.bindVertexArray 0] ++
            (match g.m_Texture with
             | some _ => [DriverCall.bindTexture 0]
             | none => []) ++
            [DriverCall.useProgram 0]
          Except.ok (g, some texStep.2,
                     t0 ++ t1 ++ texStep.1 ++ t3 ++ draw ++ tailCalls)

/-! ### Helper lemmas about association lists and the frame operations -/

theorem assocFind_append_of_none {α β : Type} [DecidableEq α] (j : α)
    {m1 : List (α × β)} (m2 : List (α × β)) (h : assocFind j m1 = none) :
    assocFind j (m1 ++ m2) = assocFind j m2 := by
  induction m1 with
  | nil => rfl
  | cons p rest ih =>
      by_cases hj : j = p.1
      · simp [assocFind, hj] at h
      · simp only [assocFind, hj, if_neg hj, List.cons_append] at h ⊢
        exact ih h

theorem assocFind_append_of_some {α β : Type} [DecidableEq α] (j : α)
    {m1 : List (α × β)} (m2 : List (α × β)) {v : β}
    (h : assocFind j m1 = some v) :
    assocFind j (m1 ++ m2) = some v := by
  induction m1 with
  | nil => simp [assocFind] at h
  | cons p rest ih =>
      by_cases hj : j = p.1
      · simp only [assocFind, if_pos hj, List.cons_append] at h ⊢
        exact h
      · simp only [assocFind, if_neg hj, List.cons_append] at h ⊢
        exact ih h

theorem assocFind_assocSet {α β : Type} [DecidableEq α] (k j : α) (v : β)
    (m : List (α × β)) :
    assocFind j (assocSet k v m) = if j = k then some v else assocFind j m := by
  induction m with
  | nil => by_cases hj : j = k <;> simp [assocSet, assocFind, hj]
  | cons p rest ih =>
      obtain ⟨a, b⟩ := p
      by_cases hka : k = a
      · subst hka
        by_cases hj : j = k <;> simp [assocSet, assocFind, hj]
      · by_cases hja : j = a
        · subst hja
          have hjk : ¬ j = k := fun h => hka h.symm
          simp [assocSet, assocFind, hka, hjk]
        · simp [assocSet, assocFind, hka, hja, ih]

theorem assocFind_decayEntries (k : Nat) (m : List (Nat × KeyState)) :
    assocFind k (decayEntries m) = (assocFind k m).map keyStateDecay := by
  induction m with
  | nil => rfl
  | cons p rest ih =>
      obtain ⟨a, b⟩ := p
      by_cases h : k = a
      · simp [decayEntries, assocFind, h]
      · simp only [decayEntries, List.map_cons, assocFind, if_neg h]
        exact ih

theorem secondUpdate_keys_find (w : Window) (k : Nat) :
    assocFind k w.secondUpdate.m_Keys = (assocFind k w.m_Keys).map keyStateDecay := by
  simp [Window.secondUpdate, assocFind_decayEntries]

theorem secondUpdate_buttons_find (w : Window) (b : Nat) :
    assocFind b w.secondUpdate.m_MouseButtons =
      (assocFind b w.m_MouseButtons).map keyStateDecay := by
  simp [Window.secondUpdate, assocFind_decayEntries]

theorem keys_down_iterate (k : Nat) (n : Nat) (w : Window)
    (h : assocFind k w.m_Keys = some KeyState.Down) :
    assocFind k (Window.secondUpdate^[n] w).m_Keys = some KeyState.Down := by
  induction n generalizing w with
  | zero => simpa using h
  | succ n ih =>
      rw [Function.iterate_succ_apply]
      refine ih _ ?_
      rw [secondUpdate_keys_find, h]
      rfl

theorem buttons_down_iterate (b : Nat) (n : Nat) (w : Window)
    (h : assocFind b w.m_MouseButtons = some KeyState.Down) :
    assocFind b (Window.secondUpdate^[n] w).m_MouseButtons = some KeyState.Down := by
  induction n generalizing w with
  | zero => simpa using h
  | succ n ih =>
      rw [Function.iterate_succ_apply]
      refine ih _ ?_
      rw [secondUpdate_buttons_find, h]
      rfl

theorem processEvent_m_Keys (w : Window) (e : SDLEvent) :
    (w.processEvent e).m_Keys =
      match e with
      | SDLEvent.keyDown c => assocSet c KeyState.JustPressed w.m_Keys
      | SDLEvent.keyUp c => assocSet c KeyState.JustReleased w.m_Keys
      | _ => w.m_Keys := by
  cases e <;> first
    | rfl
    | (simp only [Window.processEvent]; split_ifs <;> rfl)

theorem processEvent_m_MouseButtons (w : Window) (e : SDLEvent) :
    (w.processEvent e).m_MouseButtons =
      match e with
      | SDLEvent.mouseButtonDown c => assocSet c KeyState.JustPressed w.m_MouseButtons
      | SDLEvent.mouseButtonUp c => assocSet c KeyState.JustReleased w.m_MouseButtons
      | _ => w.m_MouseButtons := by
  cases e <;> first
    | rfl
    | (simp only [Window.processEvent]; split_ifs <;> rfl)

theorem keys_held_processEvent (k : Nat) (w : Window) (e : SDLEvent)
    (he : e ≠ SDLEvent.keyUp k)
    (h : assocFind k w.m_Keys = some KeyState.Down ∨
         assocFind k w.m_Keys = some KeyState.JustPressed) :
    assocFind k (w.processEvent e).m_Keys = some KeyState.Down ∨
    assocFind k (w.processEvent e).m_Keys = some KeyState.JustPressed := by
  rw [processEvent_m_Keys]
  cases e with
  | keyDown c =>
      rw [assocFind_assocSet]
      by_cases hk : k = c
      · right; rw [if_pos hk]
      · rw [if_neg hk]; exact h
  | keyUp c =>
      have hkc : ¬ k = c := fun hk => he (by rw [hk])
      rw [assocFind_assocSet, if_neg hkc]
      exact h
  | quit => exact h
  | mouseButtonDown c => exact h
  | mouseButtonUp c => exact h
  | windowResized a b => exact h
  | mouseMotion x y xr yr => exact h
  | mouseWheel py => exact h

theorem buttons_held_processEvent (b : Nat) (w : Window) (e : SDLEvent)
    (he : e ≠ SDLEvent.mouseButtonUp b)
    (h : assocFind b w.m_MouseButtons = some KeyState.Down ∨
         assocFind b w.m_MouseButtons = some KeyState.JustPressed) :
    assocFind b (w.processEvent e).m_MouseButtons = some KeyState.Down ∨
    assocFind b (w.processEvent e).m_MouseButtons = some KeyState.JustPressed := by
  rw [processEvent_m_MouseButtons]
  cases e with
  | mouseButtonDown c =>
      rw [assocFind_assocSet]
      by_cases hb : b = c
      · right; rw [if_pos hb]
      · rw [if_neg hb]; exact h
  | mouseButtonUp c =>
      have hbc : ¬ b = c := fun hb => he (by rw [hb])
      rw [assocFind_assocSet, if_neg hbc]
      exact h
  | quit => exact h
  | keyDown c => exact h
  | keyUp c => exact h
  | windowResized a bb => exact h
  | mouseMotion x y xr yr => exact h
  | mouseWheel py => exact h

theorem keys_held_after_events (k : Nat) (evs : List SDLEvent)
    (hevs : ∀ e ∈ evs, e ≠ SDLEvent.keyUp k) (w : Window)
    (h : assocFind k w.m_Keys = some KeyState.Down ∨
         assocFind k w.m_Keys = some KeyState.JustPressed) :
    assocFind k (w.firstUpdate evs).m_Keys = some KeyState.Down ∨
    assocFind k (w.firstUpdate evs).m_Keys = some KeyState.JustPressed := by
  induction evs generalizing w with
  | nil => exact h
  | cons e rest ih =>
      have h1 := keys_held_processEvent k w e (hevs e (by simp)) h
      exact ih (fun x hx => hevs x (by simp [hx])) _ h1

theorem buttons_held_after_events (b : Nat) (evs : List SDLEvent)
    (hevs : ∀ e ∈ evs, e ≠ SDLEvent.mouseButtonUp b) (w : Window)
    (h : assocFind b w.m_MouseButtons = some KeyState.Down ∨
         assocFind b w.m_MouseButtons = some KeyState.JustPressed) :
    assocFind b (w.firstUpdate evs).m_MouseButtons = some KeyState.Down ∨
    assocFind b (w.firstUpdate evs).m_MouseButtons = some KeyState.JustPressed := by
  induction evs generalizing w with
  | nil => exact h
  | cons e rest ih =>
      have h1 := buttons_held_processEvent b w e (hevs e (by simp)) h
      exact ih (fun x hx => hevs x (by simp [hx])) _ h1

/-! ### Concrete states used by witnesses and counterexamples -/

/-- A window whose key 3 is JustPressed, key 4 JustReleased, button 1
JustPressed and button 2 JustReleased. -/
def c1Window : Window :=
  { initWindow 800 600 with
      m_Keys := [(3, KeyState.JustPressed), (4, KeyState.JustReleased)],
      m_MouseButtons := [(1, KeyState.JustPressed), (2, KeyState.JustReleased)] }

/-- A window whose key 3 and button 1 are Down. -/
def c1DownWindow : Window :=
  { initWindow 800 600 with
      m_Keys := [(3, KeyState.Down)],
      m_MouseButtons := [(1, KeyState.Down)] }

/-- A freshly constructed window whose frame time is 0.1 seconds. -/
def scrollTestWindow : Window :=
  { initWindow 800 600 with m_DeltaTime := 1/10 }

/-! ### Claims C1, C2, C3, C8 -/

/-- Claim C1: every JustPressed key or button state becomes Down after
exactly one `SecondUpdate` call and stays Down across any further
`SecondUpdate` calls, and also across whole frames whose events contain
no release of that code; every JustReleased state becomes Released after
exactly one `SecondUpdate` call. -/
theorem C1_endFrame_decay (w : Window) (k b : Nat) :
    (assocFind k w.m_Keys = some KeyState.JustPressed →
      assocFind k w.secondUpdate.m_Keys = some KeyState.Down ∧
      ∀ n : Nat, assocFind k (Window.secondUpdate^[n] w.secondUpdate).m_Keys =
        some KeyState.Down) ∧
    (assocFind k w.m_Keys = some KeyState.JustReleased →
      assocFind k w.secondUpdate.m_Keys = some KeyState.Released) ∧
    (assocFind k w.m_Keys = some KeyState.Down →
      ∀ evs : List SDLEvent, (∀ e ∈ evs, e ≠ SDLEvent.keyUp k) →
        assocFind k ((w.firstUpdate evs).secondUpdate).m_Keys =
          some KeyState.Down) ∧
    (assocFind b w.m_MouseButtons = some KeyState.JustPressed →
      assocFind b w.secondUpdate.m_MouseButtons = some KeyState.Down ∧
      ∀ n : Nat, assocFind b (Window.secondUpdate^[n] w.secondUpdate).m_MouseButtons =
        some KeyState.Down) ∧
    (assocFind b w.m_MouseButtons = some KeyState.JustReleased →
      assocFind b w.secondUpdate.m_MouseButtons = some KeyState.Released) ∧
    (assocFind b w.m_MouseButtons = some KeyState.Down →
      ∀ evs : List SDLEvent, (∀ e ∈ evs, e ≠ SDLEvent.mouseButtonUp b) →
        assocFind b ((w.firstUpdate evs).secondUpdate).m_MouseButtons =
          some KeyState.Down) := by
  refine ⟨?_, ?_, ?_, ?_, ?_, ?_⟩
  · intro h
    have h1 : assocFind k w.secondUpdate.m_Keys = some KeyState.Down := by
      rw [secondUpdate_keys_find, h]; rfl
    exact ⟨h1, fun n => keys_down_iterate k n _ h1⟩
  · intro h
    rw [secondUpdate_keys_find, h]; rfl
  · intro h evs hevs
    have h1 := keys_held_after_events k evs hevs w (Or.inl h)
    rcases h1 with h1 | h1 <;> rw [secondUpdate_keys_find, h1] <;> rfl
  · intro h
    have h1 : assocFind b w.secondUpdate.m_MouseButtons = some KeyState.Down := by
      rw [secondUpdate_buttons_find, h]; rfl
    exact ⟨h1, fun n => buttons_down_iterate b n _ h1⟩
  · intro h
    rw [secondUpdate_buttons_find, h]; rfl
  · intro h evs hevs
    have h1 := buttons_held_after_events b evs hevs w (Or.inl h)
    rcases h1 with h1 | h1 <;> rw [secondUpdate_buttons_find, h1] <;> rfl

/-- Witness for C1 at concrete windows: key 3 JustPressed decays to Down
and stays Down across two more frame ends, key 4 JustReleased decays to
Released, buttons likewise, and a Down key and button survive a frame of
unrelated events. -/
theorem C1_endFrame_decay_witness :
    assocFind 3 c1Window.secondUpdate.m_Keys = some KeyState.Down ∧
    assocFind 3 (Window.secondUpdate^[2] c1Window.secondUpdate).m_Keys =
      some KeyState.Down ∧
    assocFind 4 c1Window.secondUpdate.m_Keys = some KeyState.Released ∧
    assocFind 1 c1Window.secondUpdate.m_MouseButtons = some KeyState.Down ∧
    assocFind 2 c1Window.secondUpdate.m_MouseButtons = some KeyState.Released ∧
    assocFind 3 ((c1DownWindow.firstUpdate
        [SDLEvent.keyDown 7, SDLEvent.mouseButtonUp 0]).secondUpdate).m_Keys =
      some KeyState.Down ∧
    assocFind 1 ((c1DownWindow.firstUpdate
        [SDLEvent.keyDown 7, SDLEvent.mouseButtonUp 0]).secondUpdate).m_MouseButtons =
      some KeyState.Down := by
  obtain ⟨a1, a2, -, a4, a5, -⟩ := C1_endFrame_decay c1Window 3 1
  obtain ⟨-, b2, -, -, b5, -⟩ := C1_endFrame_decay c1Window 4 2
  obtain ⟨-, -, c3, -, -, c6⟩ := C1_endFrame_decay c1DownWindow 3 1
  refine ⟨(a1 (by decide)).1, (a1 (by decide)).2 2, b2 (by decide),
          (a4 (by decide)).1, b5 (by decide),
          c3 (by decide) _ (by decide), c6 (by decide) _ (by decide)⟩

/-- Claim C2 (code bug demonstration): mouse button 5 is never touched
by any input event (the constructor initializes only buttons 0 .. 4,
while SDL numbers its buttons 1 .. 5), yet after one state query and one
`SecondUpdate` the down query returns true: `operator[]`
default-inserts the zero enumerator JustPressed, which decays to Down. -/
theorem C2_untouched_button_reads_down :
    ((initWindow 800 600).checkMouseButtonDown 5).1 = false ∧
    ((initWindow 800 600).checkMouseButtonUp 5).1 = false ∧
    ((((initWindow 800 600).checkMouseButtonDown 5).2.secondUpdate).checkMouseButtonDown 5).1
      = true := by
  refine ⟨by decide, by decide, by decide⟩

/-- Claim C3 counterexample: with elapsed time 0.1 and rate 550, one
negative-direction wheel event moves the accumulator by +55, not by -55
(and the positive direction moves it by -55, not +55): the code
subtracts on `preciseY > 0` and adds on `preciseY < 0`. -/
theorem C3_scroll_sign_counterexample :
    ¬ ((scrollTestWindow.processEvent (SDLEvent.mouseWheel (-1))).m_ScrollDistance -
          scrollTestWindow.m_ScrollDistance = -55 ∧
       (scrollTestWindow.processEvent (SDLEvent.mouseWheel 1)).m_ScrollDistance -
          scrollTestWindow.m_ScrollDistance = 55) := by
  intro h
  have h1 := h.1
  have e1 : (scrollTestWindow.processEvent (SDLEvent.mouseWheel (-1))).m_ScrollDistance =
      scrollTestWindow.m_ScrollDistance +
        scrollTestWindow.m_ZoomSpeed * scrollTestWindow.m_DeltaTime := by
    simp only [Window.processEvent]
    norm_num
  have hdt : scrollTestWindow.m_DeltaTime = 1/10 := rfl
  have hz : scrollTestWindow.m_ZoomSpeed = 550 := rfl
  rw [e1, hdt, hz] at h1
  linarith

/-- Claim C3 as amended: for a frame with elapsed time 0.1 seconds and
scroll rate 550, one negative-direction wheel event (preciseY < 0)
changes the scroll accumulator by +55.0, and one positive-direction
wheel event (preciseY > 0) changes it by -55.0. -/
theorem C3_scroll_amended (w : Window) (y : ℚ)
    (hdt : w.m_DeltaTime = 1/10) (hz : w.m_ZoomSpeed = 550) :
    (y < 0 → (w.processEvent (SDLEvent.mouseWheel y)).m_ScrollDistance =
        w.m_ScrollDistance + 55) ∧
    (y > 0 → (w.processEvent (SDLEvent.mouseWheel y)).m_ScrollDistance =
        w.m_ScrollDistance - 55) := by
  constructor
  · intro hy
    have hny : ¬ y > 0 := by linarith
    simp only [Window.processEvent, if_neg hny, if_pos hy, hdt, hz]
    norm_num
  · intro hy
    simp only [Window.processEvent, if_pos hy, hdt, hz]
    norm_num

/-- Witness for the amended C3 at the concrete window with frame time
0.1: a wheel event with preciseY = -1 adds 55, one with preciseY = 2
subtracts 55. -/
theorem C3_scroll_amended_witness :
    (scrollTestWindow.processEvent (SDLEvent.mouseWheel (-1))).m_ScrollDistance =
      scrollTestWindow.m_ScrollDistance + 55 ∧
    (scrollTestWindow.processEvent (SDLEvent.mouseWheel 2)).m_ScrollDistance =
      scrollTestWindow.m_ScrollDistance - 55 :=
  ⟨(C3_scroll_amended scrollTestWindow (-1) rfl rfl).1 (by norm_num),
   (C3_scroll_amended scrollTestWindow 2 rfl rfl).2 (by norm_num)⟩

/-- Claim C8: `SecondUpdate` clears the resized flag and both relative
mouse-displacement components, decays the two state maps, and changes
no other field: scroll accumulator, absolute mouse position, width,
height, delta time, zoom speed and the open flag are untouched. -/
theorem C8_endFrame_frame_effect (w : Window) :
    w.secondUpdate.m_IsResized = false ∧
    w.secondUpdate.m_MouseRelX = 0 ∧
    w.secondUpdate.m_MouseRelY = 0 ∧
    w.secondUpdate.m_ScrollDistance = w.m_ScrollDistance ∧
    w.secondUpdate.m_MousePosX = w.m_MousePosX ∧
    w.secondUpdate.m_MousePosY = w.m_MousePosY ∧
    w.secondUpdate.m_Width = w.m_Width ∧
    w.secondUpdate.m_Height = w.m_Height ∧
    w.secondUpdate.m_DeltaTime = w.m_DeltaTime ∧
    w.secondUpdate.m_ZoomSpeed = w.m_ZoomSpeed ∧
    w.secondUpdate.m_IsOpen = w.m_IsOpen ∧
    w.secondUpdate.m_Keys = decayEntries w.m_Keys ∧
    w.secondUpdate.m_MouseButtons = decayEntries w.m_MouseButtons :=
  ⟨rfl, rfl, rfl, rfl, rfl, rfl, rfl, rfl, rfl, rfl, rfl, rfl, rfl⟩

/-! ### Claims C5, C6, C10 (buffer objects) -/

/-- Claim C5: a buffer update whose new byte size equals the recorded
allocation writes in place (sub-range write, size unchanged), one whose
byte size differs reallocates (size re-recorded); in both cases the
reported element count afterwards is the length of the new sequence.
Stated for the vertex buffer and for the index buffer. -/
theorem C5_update_inplace_or_realloc (v : VertexBufferObject) (vs : List Vertex)
    (e : ElementBufferObject) (idx : List Nat) :
    (vs.length * sizeofVertex = v.m_Size →
      (v.UpdateVBO vs).2 = BufferAction.subData ∧
      (v.UpdateVBO vs).1.m_Size = v.m_Size ∧
      (v.UpdateVBO vs).1.GetVertexCount = vs.length) ∧
    (vs.length * sizeofVertex ≠ v.m_Size →
      (v.UpdateVBO vs).2 = BufferAction.reallocData ∧
      (v.UpdateVBO vs).1.m_Size = vs.length * sizeofVertex ∧
      (v.UpdateVBO vs).1.GetVertexCount = vs.length) ∧
    (idx.length * sizeofUInt = e.m_Size →
      (e.UpdateVBO idx).2 = BufferAction.subData ∧
      (e.UpdateVBO idx).1.m_Size = e.m_Size ∧
      (e.UpdateVBO idx).1.GetIndexCount = idx.length) ∧
    (idx.length * sizeofUInt ≠ e.m_Size →
      (e.UpdateVBO idx).2 = BufferAction.reallocData ∧
      (e.UpdateVBO idx).1.m_Size = idx.length * sizeofUInt ∧
      (e.UpdateVBO idx).1.GetIndexCount = idx.length) := by
  refine ⟨?_, ?_, ?_, ?_⟩ <;> intro h <;>
    simp [VertexBufferObject.UpdateVBO, ElementBufferObject.UpdateVBO,
          VertexBufferObject.GetVertexCount, ElementBufferObject.GetIndexCount, h]

/-- Sample vertices for witnesses. -/
def vert0 : Vertex := ⟨(0, 0, 0), (0, 0, 0), (0, 0, 0), (0, 0)⟩

/-- Another sample vertex. -/
def vert1 : Vertex := ⟨(1, 0, 0), (0, 1, 0), (0, 0, 1), (1, 1)⟩

/-- Witness for C5: updating a one-vertex buffer with another single
vertex keeps the 44-byte footprint (sub-range write), updating it with
the empty list changes the footprint (reallocation); likewise for a
three-index buffer. -/
theorem C5_update_inplace_or_realloc_witness :
    ((mkVertexBufferObject 1 [vert0] BufferUsage.DynamicDraw).UpdateVBO [vert1]).2 =
      BufferAction.subData ∧
    ((mkVertexBufferObject 1 [vert0] BufferUsage.DynamicDraw).UpdateVBO []).2 =
      BufferAction.reallocData ∧
    ((mkElementBufferObject 2 [0, 1, 2] BufferUsage.StaticDraw).UpdateVBO [2, 1, 0]).2 =
      BufferAction.subData ∧
    ((mkElementBufferObject 2 [0, 1, 2] BufferUsage.StaticDraw).UpdateVBO [0]).2 =
      BufferAction.reallocData := by
  obtain ⟨p1, -, -, -⟩ :=
    C5_update_inplace_or_realloc (mkVertexBufferObject 1 [vert0] BufferUsage.DynamicDraw)
      [vert1] (mkElementBufferObject 2 [0, 1, 2] BufferUsage.StaticDraw) [2, 1, 0]
  obtain ⟨-, p2, -, -⟩ :=
    C5_update_inplace_or_realloc (mkVertexBufferObject 1 [vert0] BufferUsage.DynamicDraw)
      [] (mkElementBufferObject 2 [0, 1, 2] BufferUsage.StaticDraw) [0]
  obtain ⟨-, -, p3, -⟩ :=
    C5_update_inplace_or_realloc (mkVertexBufferObject 1 [vert0] BufferUsage.DynamicDraw)
      [vert1] (mkElementBufferObject 2 [0, 1, 2] BufferUsage.StaticDraw) [2, 1, 0]
  obtain ⟨-, -, -, p4⟩ :=
    C5_update_inplace_or_realloc (mkVertexBufferObject 1 [vert0] BufferUsage.DynamicDraw)
      [] (mkElementBufferObject 2 [0, 1, 2] BufferUsage.StaticDraw) [0]
  exact ⟨(p1 (by decide)).1, (p2 (by decide)).1, (p3 (by decide)).1, (p4 (by decide)).1⟩

/-- Claim C6: a vertex buffer constructed from N vertices reports vertex
count N, and after an update with M vertices reports M. -/
theorem C6_vertex_count_roundtrip (id : Nat) (vs ms : List Vertex)
    (usage : BufferUsage) :
    (mkVertexBufferObject id vs usage).GetVertexCount = vs.length ∧
    ((mkVertexBufferObject id vs usage).UpdateVBO ms).1.GetVertexCount = ms.length := by
  refine ⟨rfl, ?_⟩
  simp only [VertexBufferObject.UpdateVBO]
  split <;> rfl

/-- Claim C10: the move constructor transfers the handle and usage but
leaves the size metadata at its default-initialized zero, so the target
reports vertex count 0 and byte size 0, and any nonempty update on the
target reallocates; move assignment transfers the vertex count but not
the recorded byte size. -/
theorem C10_move_metadata (v t : VertexBufferObject) (vs : List Vertex)
    (hv : 0 < v.m_VertexCount) (hvs : vs ≠ []) :
    (VertexBufferObject.moveConstruct v).1.GetVertexCount = 0 ∧
    (VertexBufferObject.moveConstruct v).1.m_Size = 0 ∧
    (VertexBufferObject.moveConstruct v).1.m_ID = v.m_ID ∧
    (VertexBufferObject.moveConstruct v).1.m_Usage = v.m_Usage ∧
    ((VertexBufferObject.moveConstruct v).1.UpdateVBO vs).2 = BufferAction.reallocData ∧
    (VertexBufferObject.moveAssign t v).1.m_VertexCount = v.m_VertexCount ∧
    (VertexBufferObject.moveAssign t v).1.m_Size = t.m_Size := by
  have hlen : vs.length ≠ 0 := fun h0 => hvs (List.eq_nil_of_length_eq_zero h0)
  have hne : vs.length * sizeofVertex ≠ 0 :=
    Nat.mul_ne_zero hlen (by norm_num [sizeofVertex])
  refine ⟨rfl, rfl, rfl, rfl, ?_, rfl, rfl⟩
  simp [VertexBufferObject.UpdateVBO, VertexBufferObject.moveConstruct, hne]

/-- Witness for C10 at a concrete two-vertex buffer: the
move-constructed target reports zero metadata and reallocates on a
one-vertex update; move assignment carries the count 2 but keeps the
target byte size 80. -/
theorem C10_move_metadata_witness :
    (VertexBufferObject.moveConstruct
        (mkVertexBufferObject 3 [vert0, vert1] BufferUsage.StaticDraw)).1.GetVertexCount = 0 ∧
    ((VertexBufferObject.moveConstruct
        (mkVertexBufferObject 3 [vert0, vert1] BufferUsage.StaticDraw)).1.UpdateVBO [vert0]).2 =
      BufferAction.reallocData ∧
    (VertexBufferObject.moveAssign
        { m_ID := 4, m_Usage := BufferUsage.DynamicDraw, m_Size := 80, m_VertexCount := 9 }
        (mkVertexBufferObject 3 [vert0, vert1] BufferUsage.StaticDraw)).1.m_VertexCount = 2 ∧
    (VertexBufferObject.moveAssign
        { m_ID := 4, m_Usage := BufferUsage.DynamicDraw, m_Size := 80, m_VertexCount := 9 }
        (mkVertexBufferObject 3 [vert0, vert1] BufferUsage.StaticDraw)).1.m_Size = 80 := by
  obtain ⟨q1, -, -, -, q5, q6, q7⟩ :=
    C10_move_metadata (mkVertexBufferObject 3 [vert0, vert1] BufferUsage.StaticDraw)
      { m_ID := 4, m_Usage := BufferUsage.DynamicDraw, m_Size := 80, m_VertexCount := 9 }
      [vert0] (by decide) (by decide)
  exact ⟨q1, q5, q6, q7⟩

/-! ### Claim C9 (uniform-location cache) -/

/-- Claim C9: a first lookup of a name not in the cache queries the
driver, stores the result (including a sentinel for an absent name) and
reports it; a repeated lookup of the same name returns the stored value
without querying the driver and leaves the cache unchanged; a lookup of
an already-cached name returns exactly the cached value with no driver
query and no state change. -/
theorem C9_uniform_cache (s : Shader) (driver : String → Int) (name : String) :
    (assocFind name s.m_UniformLocations = none →
      (Shader.GetUniformLocation driver s name).1 = driver name ∧
      (Shader.GetUniformLocation driver s name).2.2 = true ∧
      assocFind name (Shader.GetUniformLocation driver s name).2.1.m_UniformLocations =
        some (driver name) ∧
      (Shader.GetUniformLocation driver
          (Shader.GetUniformLocation driver s name).2.1 name).1 = driver name ∧
      (Shader.GetUniformLocation driver
          (Shader.GetUniformLocation driver s name).2.1 name).2.2 = false ∧
      (Shader.GetUniformLocation driver
          (Shader.GetUniformLocation driver s name).2.1 name).2.1 =
        (Shader.GetUniformLocation driver s name).2.1) ∧
    (∀ loc : Int, assocFind name s.m_UniformLocations = some loc →
      Shader.GetUniformLocation driver s name = (loc, s, false)) := by
  constructor
  · intro h
    have hfind : assocFind name (s.m_UniformLocations ++ [(name, driver name)]) =
        some (driver name) := by
      rw [assocFind_append_of_none name _ h]
      simp [assocFind]
    refine ⟨?_, ?_, ?_, ?_, ?_, ?_⟩ <;>
      simp [Shader.GetUniformLocation, h, hfind]
  · intro loc hloc
    simp [Shader.GetUniformLocation, hloc]

/-- The abstracted `glGetUniformLocation` used by witnesses: the program
knows `uModel` at location 3 and returns the sentinel -1 otherwise. -/
def c9Driver : String → Int := fun n => if n = "uModel" then 3 else -1

/-- A shader with an empty uniform-location cache. -/
def c9Shader : Shader := { m_ID := 7, m_UniformLocations := [] }

/-- A shader whose cache already holds `uTex` at location 5. -/
def c9CachedShader : Shader := { m_ID := 7, m_UniformLocations := [("uTex", 5)] }

/-- Witness for C9: the first `uModel` lookup on an empty cache queries
the driver and yields 3, the second lookup yields 3 without a driver
query, and a lookup of the pre-cached `uTex` returns the cached 5 with
no state change. -/
theorem C9_uniform_cache_witness :
    (Shader.GetUniformLocation c9Driver c9Shader "uModel").1 = 3 ∧
    (Shader.GetUniformLocation c9Driver c9Shader "uModel").2.2 = true ∧
    (Shader.GetUniformLocation c9Driver
        (Shader.GetUniformLocation c9Driver c9Shader "uModel").2.1 "uModel").1 = 3 ∧
    (Shader.GetUniformLocation c9Driver
        (Shader.GetUniformLocation c9Driver c9Shader "uModel").2.1 "uModel").2.2 = false ∧
    Shader.GetUniformLocation c9Driver c9CachedShader "uTex" = (5, c9CachedShader, false) := by
  obtain ⟨hfresh, hcached⟩ := C9_uniform_cache c9Shader c9Driver "uModel"
  obtain ⟨a1, a2, -, a4, a5, -⟩ := hfresh rfl
  have hc := (C9_uniform_cache c9CachedShader c9Driver "uTex").2 5 (by
    simp [c9CachedShader, assocFind])
  have hd : c9Driver "uModel" = 3 := by simp [c9Driver]
  exact ⟨by rw [a1, hd], a2, by rw [a4, hd], a5, hc⟩

/-! ### Claims C4 and C7 (the draw path) -/

/-- Vertex array used by the C4 failing input. -/
def c4Vao : VertexArrayObject := { m_ID := 10 }

/-- Vertex buffer with three vertices used by the C4 failing input. -/
def c4Vbo : VertexBufferObject :=
  mkVertexBufferObject 11 [vert0, vert1, vert0] BufferUsage.StaticDraw

/-- A Renderable built by the vertices-only constructor: `m_EBO` is
null. -/
def c4Renderable : Renderable :=
  { m_VAO := c4Vao, m_VBO := c4Vbo, m_EBO := none,
    m_Vertices := [vert0, vert1, vert0], m_Indices := [] }

/-- A GameObject holding that Renderable and no texture. -/
def c4Object : GameObject :=
  { m_Transform := ⟨(0, 0, 0), (1, 1, 1), (0, 0, 0)⟩,
    m_Renderable := some c4Renderable, m_Texture := none }

/-- A shader supplied to Render. -/
def c4Shader : Shader := { m_ID := 9, m_UniformLocations := [] }

/-- A three-index buffer for the contrasting indexed-draw case. -/
def c4Ebo : ElementBufferObject :=
  mkElementBufferObject 12 [0, 1, 2] BufferUsage.StaticDraw

/-- Claim C4 (code bug demonstration): on a GameObject whose Renderable
has no index buffer, `Render` dereferences the null index-buffer pointer
in `GetEBO()->GetIndexCount()` before the null check, so the non-indexed
draw branch is unreachable for it; with a three-index buffer present the
same call issues the indexed draw. -/
theorem C4_null_index_buffer_deref :
    c4Object.Render c9Driver (some c4Shader) "uModel" "uTex" RenderMode.Triangles =
      Except.error "null pointer dereference in GetEBO()->GetIndexCount()" ∧
    ({ c4Object with m_Renderable := some { c4Renderable with m_EBO := some c4Ebo } }).Render
        c9Driver (some c4Shader) "uModel" "uTex" RenderMode.Triangles =
      Except.ok ({ c4Object with m_Renderable := some { c4Renderable with m_EBO := some c4Ebo } },
                 some { c4Shader with m_UniformLocations := [("uModel", 3)] },
                 [DriverCall.useProgram 9, DriverCall.useProgram 9,
                  DriverCall.uniformMatrix4fv 3, DriverCall.bindVertexArray 10,
                  DriverCall.drawElements RenderMode.Triangles 3,
                  DriverCall.bindVertexArray 0, DriverCall.useProgram 0]) := by
  constructor <;> rfl

/-- Claim C7: `Render` is a no-op when no Renderable is attached or when
the supplied shader pointer is null: the object, the shader state and
the driver are untouched (empty call trace). -/
theorem C7_render_noop (g : GameObject) (driver : String → Int)
    (sh : Option Shader) (mn sn : String) (mode : RenderMode) :
    (g.m_Renderable = none →
      g.Render driver sh mn sn mode = Except.ok (g, sh, [])) ∧
    g.Render driver none mn sn mode = Except.ok (g, none, []) := by
  constructor
  · intro h
    simp [GameObject.Render, h]
  · cases hr : g.m_Renderable <;> simp [GameObject.Render, hr]

/-- A GameObject with no Renderable attached. -/
def c7Object : GameObject :=
  { m_Transform := ⟨(0, 0, 0), (1, 1, 1), (0, 0, 0)⟩,
    m_Renderable := none, m_Texture := none }

/-- Witness for C7: rendering the renderable-free object with a shader
present is a no-op with an empty driver trace. -/
theorem C7_render_noop_witness :
    c7Object.Render c9Driver (some c4Shader) "uModel" "uTex" RenderMode.Triangles =
      Except.ok (c7Object, some c4Shader, []) :=
  (C7_render_noop c7Object c9Driver (some c4Shader) "uModel" "uTex"
    RenderMode.Triangles).1 rfl

end imcgkn
